import Mathlib

/-!
Shallow embedding of the box-geometry, box-transform and QA-scoring layer of
`keras_ocr/tools.py`, together with theorems settling the specification
claims about it.

Conventions used throughout:

* Python/numpy floating point numbers are modelled as rationals (`ℚ`).
  None of the verified claims hinges on rounding of binary floats; where a
  float operation can signal (division by zero, out-of-range index, failed
  assertion, failed broadcast) the embedded function returns
  `Except PyErr _` with the corresponding error constructor.
* A Python `raise`/fault is `Except.error e` where `e : PyErr` identifies
  the kind of exception the interpreter produces (`ZeroDivisionError`,
  `AssertionError`, `ValueError`, `NotImplementedError`, `IndexError`, ...).
  An *explicit* `raise ValueError/NotImplementedError` in the source is
  embedded with its message, so that an interpreter fault (e.g. an
  unguarded `ZeroDivisionError`) is distinguishable from a deliberate
  guard.
* External library primitives that the source file calls but does not
  define (cv2.resize, shapely's minimum_rotated_rectangle, np.arctan) are
  taken as parameters of the embedded functions, so every theorem below
  quantifies over their behaviour.
-/

/-- The kinds of Python exceptions that the embedded fragments of
`keras_ocr/tools.py` can produce.  `zeroDivision` is the interpreter's
unguarded `ZeroDivisionError`; `valueError` / `notImplementedError` carry
the message of an explicit `raise` in the source; `assertionError` comes
from a failed `assert` statement; `indexError` from an out-of-range
sequence index. -/
inductive PyErr where
  | zeroDivision : PyErr
  | assertionError : PyErr
  | valueError : String → PyErr
  | notImplementedError : String → PyErr
  | indexError : PyErr
deriving DecidableEq, Repr

/-- A 2-D point `(x, y)` with rational coordinates. -/
abbrev Point : Type := ℚ × ℚ

deriving instance DecidableEq for Except

/-- A quadrilateral: the four points of a box, in the order they appear in
the Python array (`box[0]`, `box[1]`, `box[2]`, `box[3]`). -/
structure Quad where
  p0 : Point
  p1 : Point
  p2 : Point
  p3 : Point
deriving DecidableEq, Repr, Inhabited

/-- Python `int()` truncation toward zero of a rational. -/
def pyTrunc (q : ℚ) : ℤ :=
  if 0 ≤ q then ⌊q⌋ else -⌊-q⌋

/-- Rounding of `q` to the nearest integer with ties to even, as Python's
built-in `round` does. -/
def roundHalfEven (q : ℚ) : ℤ :=
  let f := ⌊q⌋
  let r := q - f
  if r < 1/2 then f
  else if 1/2 < r then f + 1
  else if f % 2 = 0 then f else f + 1

/-- Python's `round(q, 2)`: round to two decimal places, ties to even. -/
def pyRound2 (q : ℚ) : ℚ :=
  (roundHalfEven (q * 100) : ℚ) / 100

/-- Python division `a / b`: raises `ZeroDivisionError` when `b = 0`. -/
def pyDiv (a b : ℚ) : Except PyErr ℚ :=
  if b = 0 then .error .zeroDivision else .ok (a / b)

/-- Rational division as performed by numpy on float arrays, with the
division by zero case (which yields non-numbers inf/nan in numpy) made
explicit as `none`. -/
def ratDivOpt (a b : ℚ) : Option ℚ :=
  if b = 0 then none else some (a / b)

/-! ### QA scoring: `precision` (tools.py lines 1029-1064) -/

/-- One ground-truth object as produced by `objects_bb`: a single-key
dictionary mapping the decoded label to the four stored polygon points.
Modelled as the pair of that key with the 4-point tuple. -/
abbrev GtEntry : Type := String × Quad

/-- One pipeline prediction: a `(text, box)` pair where the box is the
four-point array whose corners `[0]` and `[2]` the scorer reads. -/
abbrev Pred : Type := String × Quad

/-- `compare_difference` from `precision` (tools.py lines 1036-1045):
`delta = 10`; true iff `min(a, b) + delta >= max(a, b)`. -/
def compare_difference (number_a number_b : ℚ) : Bool :=
  let delta : ℚ := 10
  let max_first := max number_a number_b
  let min_first := min number_a number_b
  decide (min_first + delta ≥ max_first)

/-- The accumulation loop of `precision` (tools.py lines 1049-1062): for
every ground-truth entry, every prediction with equal text whose first
corner passes `compare_difference` on both coordinates increments
`correct_answer`.  The third corner (`second_predict`) and the second
stored point (`second_true`) are bound in the source but never compared;
there is no `break`, so one ground-truth entry can be counted several
times. -/
def precisionCount (gt_object : List GtEntry) (predict : List Pred) : ℕ :=
  gt_object.foldl
    (fun acc i =>
      let key := i.1
      let first_true := i.2.p0
      predict.foldl
        (fun a p =>
          if p.1 = key then
            let first_predict := p.2.p0
            if compare_difference first_predict.1 first_true.1 &&
               compare_difference first_predict.2 first_true.2
            then a + 1 else a
          else a)
        acc)
    0

/-- `precision` (tools.py lines 1029-1064): the counting loop followed by
`round(correct_answer / len(gt_object), 2)`.  The division is the plain
Python `/`, so an empty ground-truth group produces the interpreter's
`ZeroDivisionError`; there is no explicit guard in the source. -/
def precision (gt_object : List GtEntry) (predict : List Pred) : Except PyErr ℚ :=
  (pyDiv (precisionCount gt_object predict) gt_object.length).map pyRound2

/-- The spec's wording of one ground-truth/prediction match, for
comparison with the source's `precision` loop: the prediction's text
equals the entry's label and the prediction's *first-corner* x and y are
each within `|a - b| ≤ 10` of the entry's first stored point.  (The
claim additionally requires the third corner to match the second stored
point; the source never compares those, which is part of what the
theorems below establish.) -/
def specFirstCornerMatch (i : GtEntry) (p : Pred) : Bool :=
  decide (p.1 = i.1) && decide (|p.2.p0.1 - i.2.p0.1| ≤ 10) &&
    decide (|p.2.p0.2 - i.2.p0.2| ≤ 10)

/-! ### QA scoring: `got_gt_objects` (tools.py lines 1018-1026) -/

/-- Python's `list.remove(x)`: drop the first element equal to `x`
(the element is always present at the call sites modelled here). -/
def pyRemove (l : List GtEntry) (x : GtEntry) : List GtEntry :=
  match l with
  | [] => []
  | y :: rest => if y = x then rest else y :: pyRemove rest x

/-- The `for i in cards: if len(list(i)[0]) == 1: cards.remove(i)` loop of
`got_gt_objects` (tools.py lines 1021-1023), with Python's list-iterator
semantics made explicit: the iterator keeps a position `idx` into the
*current* list, yields `cards[idx]`, then advances to `idx + 1`, also when
the current element was just removed (so the element sliding into the
vacated position is skipped).  `fuel` bounds the number of iterations; the
initial list length suffices because `idx` grows by one per iteration and
the list never grows. -/
def dropSinglesLoop (fuel : ℕ) (cards : List GtEntry) (idx : ℕ) : List GtEntry :=
  match fuel with
  | 0 => cards
  | fuel + 1 =>
    if h : idx < cards.length then
      let i := cards.get ⟨idx, h⟩
      if i.1.length = 1 then dropSinglesLoop fuel (pyRemove cards i) (idx + 1)
      else dropSinglesLoop fuel cards (idx + 1)
    else cards

/-- `got_gt_objects` (tools.py lines 1018-1026) modelled on the already
parsed outputs of `objects_bb` for the three category names (the XML
parsing itself is file I/O and is not needed by any claim): the `cards`
group is filtered by the remove-while-iterating loop, `money` and `other`
pass through unchanged. -/
def got_gt_objects (cards money other : List GtEntry) : List (List GtEntry) :=
  [dropSinglesLoop cards.length cards 0, money, other]

/-! ### Box transform layer: `adjust_boxes` (tools.py lines 221-238) -/

/-- The dynamically typed `boxes` argument of `adjust_boxes`: one
constructor per shape the three supported format strings expect
(`boxes`: an array of boxes; `lines`: a list of lines of
`(box, character)` pairs; `predictions`: a list of `(word, box)` pairs). -/
inductive BoxesInput where
  | boxes : List Quad → BoxesInput
  | lines : List (List (Quad × Option Char)) → BoxesInput
  | predictions : List (String × Quad) → BoxesInput
deriving DecidableEq

/-- `np.array(box) * scale`: multiply every coordinate of a box by the
scale. -/
def scaleQuad (scale : ℚ) (q : Quad) : Quad :=
  ⟨(q.p0.1 * scale, q.p0.2 * scale), (q.p1.1 * scale, q.p1.2 * scale),
   (q.p2.1 * scale, q.p2.2 * scale), (q.p3.1 * scale, q.p3.2 * scale)⟩

/-- `adjust_boxes` (tools.py lines 221-238).  The `scale == 1` early
return precedes every format check, so at scale 1 the input is returned
unchanged whatever `boxes_format` says; only afterwards does an
unrecognized format reach the `raise NotImplementedError` line.  A data
shape that does not match the declared format would make the numpy
conversion in the corresponding branch fail; that mismatch is embedded as
a `valueError` (no claim depends on those branches). -/
def adjust_boxes (boxes : BoxesInput) (boxes_format : String) (scale : ℚ) :
    Except PyErr BoxesInput :=
  if scale = 1 then .ok boxes
  else if boxes_format = "boxes" then
    match boxes with
    | .boxes bs => .ok (.boxes (bs.map (scaleQuad scale)))
    | _ => .error (.valueError "boxes data does not match format")
  else if boxes_format = "lines" then
    match boxes with
    | .lines ls =>
      .ok (.lines (ls.map (fun line => line.map (fun bc => (scaleQuad scale bc.1, bc.2)))))
    | _ => .error (.valueError "boxes data does not match format")
  else if boxes_format = "predictions" then
    match boxes with
    | .predictions ps => .ok (.predictions (ps.map (fun wb => (wb.1, scaleQuad scale wb.2))))
    | _ => .error (.valueError "boxes data does not match format")
  else .error (.notImplementedError ("Unsupported boxes format: " ++ boxes_format))

/-! ### Images and the box transform layer: `pad`, `fit`, `warpBox` -/

/-- A numpy image as used by `pad`, `fit` and `warpBox`: its two leading
shape entries, whether it has a third (channel) axis, and the pixel
values indexed by row and column (one representative channel value per
pixel; the claims below never distinguish channels of one pixel). -/
structure PyImage where
  height : ℕ
  width : ℕ
  is3d : Bool
  pix : ℕ → ℕ → ℚ

/-- `pad` (tools.py lines 314-332).  `output_shape` is built from the
*target* `height` and `width` (lines 324-327), and the two `assert`
statements (lines 328-329) compare `height`/`width` against that very
`output_shape`, so they compare each target dimension with itself.  The
subsequent numpy assignment `padded[:image.shape[0], :image.shape[1]] =
image` broadcasts only when the image fits inside the target; otherwise
numpy raises a `ValueError`. -/
def pad (image : PyImage) (width height : ℕ) (cval : ℚ) : Except PyErr PyImage :=
  let output_shape : ℕ × ℕ := (height, width)
  if height ≥ output_shape.1 then
    if width ≥ output_shape.2 then
      if image.height ≤ height ∧ image.width ≤ width then
        .ok ⟨height, width, image.is3d,
          fun r c => if r < image.height ∧ c < image.width then image.pix r c else cval⟩
      else .error (.valueError "could not broadcast input array")
    else .error .assertionError
  else .error .assertionError

/-- Crop `img[r0:r1, c0:c1]` with numpy slice semantics for nonnegative
bounds: each bound is clamped to `[0, length]` and an empty range yields
an empty image.  (Negative bounds, which numpy would wrap, do not occur
in the verified claims.) -/
def subImage (img : PyImage) (r0 r1 c0 c1 : ℤ) : PyImage :=
  let r0n := min (max r0 0).toNat img.height
  let r1n := min (max r1 0).toNat img.height
  let c0n := min (max c0 0).toNat img.width
  let c1n := min (max c1 0).toNat img.width
  ⟨r1n - r0n, c1n - c0n, img.is3d, fun r c => img.pix (r0n + r) (c0n + c)⟩

/-- A canvas of the given two leading dimensions filled with `cval`, with
`src` pasted at the top-left corner
(`full[:src.height, :src.width] = src`, both slices clamped). -/
def pasteTopLeft (src : PyImage) (height width : ℕ) (cval : ℚ) (is3d : Bool) : PyImage :=
  ⟨height, width, is3d,
    fun r c => if r < src.height ∧ c < src.width then src.pix r c else cval⟩

/-- `fit` (tools.py lines 355-396).  `x_scale = width / image.shape[1]`
and `y_scale = height / image.shape[0]` are computed first (a zero image
dimension would fault in the division).  When both scales equal 1 the
input image is returned with scale 1 before any mode handling; only
otherwise does the mode select letterbox padding, crop clipping, or the
`raise NotImplementedError` for an unsupported mode.  `cv2.resize` is an
external primitive, passed in as `resizeFn` (arguments: image, new width,
new height).  `return_scale` in the source merely selects whether the
scale is also returned, so the embedding always returns the
`(fitted, scale)` pair. -/
def fit (resizeFn : PyImage → ℕ → ℕ → PyImage) (image : PyImage)
    (width height : ℕ) (cval : ℚ) (mode : String) : Except PyErr (PyImage × ℚ) :=
  if image.width = 0 ∨ image.height = 0 then .error .zeroDivision
  else
    let x_scale : ℚ := (width : ℚ) / (image.width : ℚ)
    let y_scale : ℚ := (height : ℚ) / (image.height : ℚ)
    if x_scale = 1 ∧ y_scale = 1 then .ok (image, 1)
    else
      let swh :=
        if (x_scale ≤ y_scale ∧ mode = "letterbox") ∨ (x_scale ≥ y_scale ∧ mode = "crop") then
          (x_scale, (width : ℚ), x_scale * (image.height : ℚ))
        else
          (y_scale, y_scale * (image.width : ℚ), (height : ℚ))
      let resize_width := (pyTrunc swh.2.1).toNat
      let resize_height := (pyTrunc swh.2.2).toNat
      if mode = "letterbox" then
        let resized := resizeFn image resize_width resize_height
        let clipped := subImage resized 0 height 0 width
        .ok (pasteTopLeft clipped height width cval true, swh.1)
      else if mode = "crop" then
        let resized := resizeFn image resize_width resize_height
        .ok (subImage resized 0 height 0 width, swh.1)
      else .error (.notImplementedError ("Unsupported mode: " ++ mode))

/-- `warpBox` (tools.py lines 77-110).  The `margin` parameter is accepted
(default 0 in the source) but never read by the body.  The crop spans the
axis-aligned rectangle between corners `box[0]` and `box[2]`; the scale is
`min(target_width / w, target_height / h)` (a zero-extent box makes the
division degenerate and the subsequent zero-size `cv2.resize` fault, both
embedded as errors); the resized crop is pasted top-left onto a
`cval`-filled canvas of the target shape, which must be able to hold it.
`cv2.resize` is the external parameter `resizeFn` (image, new width, new
height). -/
def warpBox (resizeFn : PyImage → ℕ → ℕ → PyImage) (image : PyImage) (box : Quad)
    (target_height target_width : ℕ) (margin : ℚ) (cval : Option ℚ) :
    Except PyErr PyImage :=
  let cvalV := match cval with
    | some c => c
    | none => 0
  let w : ℚ := |box.p2.1 - box.p0.1|
  let h : ℚ := |box.p2.2 - box.p0.2|
  if w = 0 ∨ h = 0 then .error .zeroDivision
  else
    let scale := min ((target_width : ℚ) / w) ((target_height : ℚ) / h)
    let crop := subImage image
      (min (pyTrunc box.p0.2) (pyTrunc box.p2.2)) (max (pyTrunc box.p0.2) (pyTrunc box.p2.2))
      (min (pyTrunc box.p0.1) (pyTrunc box.p2.1)) (max (pyTrunc box.p0.1) (pyTrunc box.p2.1))
    let resized := resizeFn crop (pyTrunc (w * scale)).toNat (pyTrunc (h * scale)).toNat
    if resized.height ≤ target_height ∧ resized.width ≤ target_width then
      .ok (pasteTopLeft resized target_height target_width cvalV image.is3d)
    else .error (.valueError "could not broadcast input array")

/-! ### Geometry primitives: `get_rotated_box` (tools.py lines 469-516)

`np.argsort` on arrays of at most 16 elements runs numpy's insertion
sort, which is stable; every argsort in the embedded code sorts 2 or 4
elements (`get_rotated_box`) or the boxes of one line (`fix_line`, four
boxes in the verified claims), so a stable insertion sort is the exact
counterpart. -/

/-- Insert `p` into a list already sorted by `key`, after any elements
with an equal key (the stable position). -/
def insertBy {α : Type} (key : α → ℚ) (p : α) : List α → List α
  | [] => [p]
  | q :: rest => if key q ≤ key p then q :: insertBy key p rest else p :: q :: rest

/-- Stable insertion sort by a rational key: the order numpy's small-array
`argsort` produces. -/
def stableSortBy {α : Type} (key : α → ℚ) (l : List α) : List α :=
  l.foldl (fun acc p => insertBy key p acc) []

/-- Squared Euclidean distance.  `spatial.distance.cdist(…, "euclidean")`
returns the square root; the source only ever compares two such
distances, and comparison of square roots of nonnegative numbers agrees
with comparison of the squares, so the embedding compares squared
distances. -/
def sqDist (p q : Point) : ℚ :=
  (p.1 - q.1) ^ 2 + (p.2 - q.2) ^ 2

/-- The point-ordering and rotation computation of `get_rotated_box`
(tools.py lines 489-516), applied to the four corner points produced by
the minimum-rotated-rectangle step: sort by x; the first two (stably)
y-sorted give `(tl, bl)`; of the remaining two, the one farther from `tl`
is `br` (`np.argsort(D)[::-1]` on two distances; on a tie the reversal
makes the *second* right-hand point `br`), the other `tr`.  The rotation
angle is `arctan((tl.x - bl.x) / (tl.y - bl.y))`; the division is
unguarded in the source (numpy emits inf/nan when `tl.y = bl.y`), so the
arctan argument is `none` exactly in that case.  The fallback branch is
unreachable: sorting four points yields four points. -/
def orderPointsRot (q : Quad) : Quad × Option ℚ :=
  match stableSortBy Prod.fst [q.p0, q.p1, q.p2, q.p3] with
  | [a, b, c, d] =>
    let tlbl := match stableSortBy Prod.snd [a, b] with
      | [u, v] => (u, v)
      | _ => (a, b)
    let tl := tlbl.1
    let bl := tlbl.2
    let brtr := if sqDist tl c ≤ sqDist tl d then (d, c) else (c, d)
    (⟨tl, brtr.2, brtr.1, bl⟩, ratDivOpt (tl.1 - bl.1) (tl.2 - bl.2))
  | _ => (q, none)

/-- `get_rotated_box` (tools.py lines 469-516).  The shapely
`minimum_rotated_rectangle` step (or its fallback to the input points) is
the external parameter `mrr`; `np.arctan` is the external parameter
`atanM`.  Returns the four ordered corner points together with
`atanM` applied to the rotation quotient (`none` when the quotient's
denominator is zero and numpy would produce inf/nan). -/
def get_rotated_box (atanM : ℚ → ℚ) (mrr : Quad → Quad) (points : Quad) :
    Quad × Option ℚ :=
  let r := orderPointsRot (mrr points)
  (r.1, r.2.map atanM)

/-! ### Line assembly: `fix_line` (tools.py lines 519-535) -/

/-- `box.mean(axis=0)`: the centroid of the four points of a box. -/
def quadMean (q : Quad) : Point :=
  ((q.p0.1 + q.p1.1 + q.p2.1 + q.p3.1) / 4, (q.p0.2 + q.p1.2 + q.p2.2 + q.p3.2) / 4)

/-- `np.argsort` over the list of key values: the stable permutation of
`[0, …, n-1]` ordering `vals` ascending. -/
def argsortBy (key : Point → ℚ) (centers : List Point) : List ℕ :=
  stableSortBy (fun i => key (centers.getD i (0, 0))) (List.range centers.length)

/-- `np.diff(l).sum()`: the sum of consecutive differences of a list. -/
def diffSum : List ℚ → ℚ
  | a :: b :: rest => (b - a) + diffSum (b :: rest)
  | _ => 0

/-- `fix_line` (tools.py lines 519-535): normalize every box through
`get_rotated_box`, compute centroids, argsort them by x and by y, compare
the summed consecutive differences of the y-sorted y-coordinates against
those of the x-sorted x-coordinates, and return the line in y order with
`"vertical"` when the former is strictly larger, else in x order with
`"horizontal"`.  `atanM` and `mrr` are the external primitives threaded
through `get_rotated_box`. -/
def fix_line (atanM : ℚ → ℚ) (mrr : Quad → Quad) (line : List (Quad × Option Char)) :
    List (Quad × Option Char) × String :=
  let line2 := line.map (fun bc => ((get_rotated_box atanM mrr bc.1).1, bc.2))
  let centers := line2.map (fun bc => quadMean bc.1)
  let sortedx := argsortBy Prod.fst centers
  let sortedy := argsortBy Prod.snd centers
  let ydiffs := diffSum (sortedy.map (fun i => (centers.getD i (0, 0)).2))
  let xdiffs := diffSum (sortedx.map (fun i => (centers.getD i (0, 0)).1))
  if ydiffs > xdiffs then
    (sortedy.map (fun i => line2.getD i (default, none)), "vertical")
  else
    (sortedx.map (fun i => line2.getD i (default, none)), "horizontal")

/-! ### Pipeline decoding: `OneGraphPipeline.decode_prediction`
(tools.py lines 873-886) -/

namespace OneGraphPipeline

/-- `self.blank_label_idx = len(alphabet)` from `OneGraphPipeline.__init__`
(tools.py line 876). -/
def blank_label_idx (alphabet : List Char) : ℤ :=
  (alphabet.length : ℤ)

/-- Python sequence indexing `alphabet[idx]` for a possibly negative
integer index: negative indices count from the end; anything out of range
raises `IndexError`. -/
def pyStrIndex (s : List Char) (i : ℤ) : Except PyErr Char :=
  let j := if i < 0 then i + (s.length : ℤ) else i
  if h : 0 ≤ j ∧ j < (s.length : ℤ) then
    .ok (s.get ⟨j.toNat, by
      have := h.2
      omega⟩)
  else .error .indexError

/-- `OneGraphPipeline.decode_prediction` (tools.py lines 879-886): for
each row of raw indices, keep the indices that are neither
`blank_label_idx` (= `len(alphabet)`) nor `-1`, map the survivors through
the alphabet, and join them into a text (modelled as the list of its
characters). -/
def decode_prediction (alphabet : List Char) (raw_predict : List (List ℤ)) :
    Except PyErr (List (List Char)) :=
  raw_predict.mapM (fun row =>
    (row.filter (fun idx => !(idx = blank_label_idx alphabet ∨ idx = -1))).mapM
      (pyStrIndex alphabet))

end OneGraphPipeline

/-! ## Theorems for the claims -/

/-- C2 (counterexample): called on an empty ground-truth group, `precision`
fails with the interpreter's unguarded `ZeroDivisionError` — the negation,
at this concrete input, of the claim that the failure is a documented
explicit division-guard error rather than an unguarded division fault. -/
theorem precision_empty_group_unguarded_fault :
    precision [] [] = Except.error PyErr.zeroDivision := by
  norm_num [precision, precisionCount, pyDiv, Except.map]

/-- C2 (amended): for every prediction list, `precision` on an empty
ground-truth group fails with the unguarded division-by-zero fault of the
`correct_answer / len(gt_object)` expression (there is no explicit guard
in the code), rather than returning NaN or any value. -/
theorem precision_empty_group_zero_division (predict : List Pred) :
    precision [] predict = Except.error PyErr.zeroDivision := by
  norm_num [precision, precisionCount, pyDiv, Except.map]

/-- `compare_difference` succeeds exactly on coordinates within absolute
difference 10. -/
theorem compare_difference_iff (a b : ℚ) :
    compare_difference a b = true ↔ |a - b| ≤ 10 := by
  simp only [compare_difference, ge_iff_le, decide_eq_true_eq]
  rcases le_total a b with h | h
  · rw [max_eq_right h, min_eq_left h, abs_sub_comm, abs_of_nonneg (by linarith)]
    constructor <;> intro <;> linarith
  · rw [max_eq_left h, min_eq_right h, abs_of_nonneg (by linarith)]
    constructor <;> intro <;> linarith

/-- A fold that adds one for every element satisfying `p` counts the
filtered length. -/
theorem foldl_count {α : Type} (p : α → Bool) (f : ℕ → α → ℕ)
    (hf : ∀ a x, f a x = if p x then a + 1 else a) :
    ∀ (l : List α) (n : ℕ), l.foldl f n = n + (l.filter p).length := by
  intro l
  induction l with
  | nil => intro n; simp
  | cons x rest ih =>
    intro n
    rw [List.foldl_cons, ih, hf, List.filter_cons]
    by_cases hx : p x <;> simp [hx] <;> omega

/-- A fold that adds `g x` per element sums the mapped list. -/
theorem foldl_addition {α : Type} (g : α → ℕ) (f : ℕ → α → ℕ)
    (hf : ∀ a x, f a x = a + g x) :
    ∀ (l : List α) (n : ℕ), l.foldl f n = n + (l.map g).sum := by
  intro l
  induction l with
  | nil => intro n; simp
  | cons x rest ih =>
    intro n
    rw [List.foldl_cons, ih, hf, List.map_cons, List.sum_cons]
    omega

/-- The counting loop of `precision` computes, for each ground-truth
entry, the number of predictions with equal text whose first corner is
within tolerance 10 of the entry's first stored point — summed over all
entries (no cap of one per entry, no third-corner comparison). -/
theorem precisionCount_eq (gt_object : List GtEntry) (predict : List Pred) :
    precisionCount gt_object predict =
      (gt_object.map (fun i => (predict.filter (specFirstCornerMatch i)).length)).sum := by
  unfold precisionCount
  rw [foldl_addition (fun i => (predict.filter (specFirstCornerMatch i)).length)
    _ ?_ gt_object 0, Nat.zero_add]
  intro a i
  rw [foldl_count (specFirstCornerMatch i) _ ?_ predict a]
  intro a' p
  by_cases h1 : p.1 = i.1
  · by_cases h2 : |p.2.p0.1 - i.2.p0.1| ≤ 10 <;> by_cases h3 : |p.2.p0.2 - i.2.p0.2| ≤ 10 <;>
      simp [h1, h2, h3, specFirstCornerMatch, compare_difference_iff]
  · simp [h1, specFirstCornerMatch]

/-- C1 (counterexample): one ground-truth entry labelled `"a"` with first
stored point `(0,0)` and second stored point `(5,5)`, against two
predictions both labelled `"a"` with first corners within tolerance but
third corners far away: the loop counts both predictions (no break, and
the third corner is never compared), so `precision` returns `2`, which
exceeds `1`; the claim predicts at most one count per entry, a
third-corner check (ruling both predictions out here), and a result at
most `1`. -/
theorem precision_exceeds_one :
    precision [("a", ⟨(0, 0), (5, 5), (0, 0), (0, 0)⟩)]
        [("a", ⟨(0, 0), (9, 9), (1000, 1000), (0, 0)⟩),
         ("a", ⟨(1, 1), (2, 2), (2000, 2000), (3, 3)⟩)] = Except.ok 2 ∧
      (1 : ℚ) < 2 := by
  constructor
  · norm_num [precision, precisionCount, pyDiv, pyRound2, roundHalfEven,
      compare_difference, List.foldl, Except.map]
  · norm_num

/-- C1 (amended): for every nonempty ground-truth group and prediction
list, `precision` counts — for each ground-truth entry — *every*
prediction whose text equals the entry's label and whose first-corner x
and y are each within `|a - b| ≤ 10` of the entry's first stored point
(the third corner and the second stored point are never compared, and one
entry may contribute more than one count), and returns that total divided
by the group size, rounded to 2 decimals; the result may exceed 1. -/
theorem precision_characterization (gt_object : List GtEntry) (predict : List Pred)
    (h : gt_object ≠ []) :
    precision gt_object predict =
      Except.ok (pyRound2
        (((gt_object.map (fun i => (predict.filter (specFirstCornerMatch i)).length)).sum : ℚ) /
          (gt_object.length : ℚ))) := by
  have hlen : (gt_object.length : ℚ) ≠ 0 := by
    have : gt_object.length ≠ 0 := by
      simpa [List.length_eq_zero] using h
    exact_mod_cast this
  rw [precision, precisionCount_eq, pyDiv, if_neg hlen]
  rfl

/-- C1 (witness): the amended characterization at the spec's own test
case shape — two ground-truth entries, exactly one matching prediction —
yields `0.5`. -/
theorem precision_characterization_witness :
    precision
        [("ab", ⟨(0, 0), (50, 50), (0, 0), (0, 0)⟩),
         ("cd", ⟨(100, 100), (150, 150), (0, 0), (0, 0)⟩)]
        [("ab", ⟨(3, 4), (60, 60), (70, 70), (0, 0)⟩)] =
      Except.ok (1 / 2) := by
  refine (precision_characterization _ _ (by simp)).trans ?_
  norm_num [specFirstCornerMatch, pyRound2, roundHalfEven, List.filter]

/-- C4 (code evaluated at the failing input): on a `cards` group of two
consecutive single-character entries, the remove-while-iterating loop of
`got_gt_objects` removes only the first one; the returned `cards` group
still contains the single-character entry `("b", …)`, contradicting the
claim that every single-character cards entry is dropped. -/
theorem got_gt_objects_keeps_adjacent_single :
    got_gt_objects
        [("a", ⟨(0, 0), (0, 0), (0, 0), (0, 0)⟩), ("b", ⟨(0, 0), (0, 0), (0, 0), (0, 0)⟩)]
        [] [] =
      [[("b", ⟨(0, 0), (0, 0), (0, 0), (0, 0)⟩)], [], []] ∧
    "b".length = 1 := by
  exact ⟨by decide, rfl⟩

/-- C3 (counterexample): with an unsupported format/mode but scale 1, the
early returns of `adjust_boxes` (`if scale == 1: return boxes`) and of
`fit` (`if x_scale == 1 and y_scale == 1`) fire *before* any format/mode
validation, so neither call fails: `adjust_boxes` hands back the input
boxes and `fit` the input image — refuting the claim that an unsupported
format/mode fails for every input. -/
theorem unsupported_format_silently_ignored_at_scale_one :
    adjust_boxes (BoxesInput.boxes []) "bogus" 1 = Except.ok (BoxesInput.boxes []) ∧
    fit (fun i _ _ => i) ⟨7, 5, true, fun _ _ => 0⟩ 5 7 0 "bogus" =
      Except.ok (⟨7, 5, true, fun _ _ => 0⟩, 1) := by
  constructor
  · simp [adjust_boxes]
  · norm_num [fit]

/-- C3 (amended): an unsupported boxes format makes `adjust_boxes` fail
with the explicit `NotImplementedError` naming the offending value for
every input with `scale ≠ 1`, and an unsupported mode makes `fit` fail
with the explicit `NotImplementedError` naming the offending value for
every (nonzero-size) image whose dimensions differ from the target in at
least one axis; when `scale == 1` (`adjust_boxes`) or both axis scales
equal 1 (`fit`), the input is returned unchanged without any format/mode
validation. -/
theorem unsupported_format_mode_errors :
    (∀ (boxes : BoxesInput) (boxes_format : String) (scale : ℚ),
      boxes_format ≠ "boxes" → boxes_format ≠ "lines" → boxes_format ≠ "predictions" →
      scale ≠ 1 →
      adjust_boxes boxes boxes_format scale =
        Except.error (.notImplementedError ("Unsupported boxes format: " ++ boxes_format))) ∧
    (∀ (resizeFn : PyImage → ℕ → ℕ → PyImage) (image : PyImage) (width height : ℕ)
      (cval : ℚ) (mode : String),
      mode ≠ "letterbox" → mode ≠ "crop" →
      image.width ≠ 0 → image.height ≠ 0 →
      ¬(width = image.width ∧ height = image.height) →
      fit resizeFn image width height cval mode =
        Except.error (.notImplementedError ("Unsupported mode: " ++ mode))) := by
  constructor
  · intro boxes boxes_format scale hb hl hp hs
    simp [adjust_boxes, hs, hb, hl, hp]
  · intro resizeFn image width height cval mode hm1 hm2 hw hh hne
    have hwq : (image.width : ℚ) ≠ 0 := by exact_mod_cast hw
    have hhq : (image.height : ℚ) ≠ 0 := by exact_mod_cast hh
    have hscale : ¬((width : ℚ) / (image.width : ℚ) = 1 ∧
        (height : ℚ) / (image.height : ℚ) = 1) := by
      rintro ⟨h1, h2⟩
      refine hne ⟨?_, ?_⟩
      · exact_mod_cast (div_eq_one_iff_eq hwq).mp h1
      · exact_mod_cast (div_eq_one_iff_eq hhq).mp h2
    rw [fit, if_neg (by push_neg; exact ⟨hw, hh⟩), if_neg hscale,
      if_neg hm1, if_neg hm2]

/-- C3 (witness): the amended theorem applied at concrete inputs — format
`"bogus"` at scale 2, and mode `"bogus"` on a 1-by-1 image fit to 3-by-4. -/
theorem unsupported_format_mode_errors_witness :
    adjust_boxes (BoxesInput.boxes []) "bogus" 2 =
      Except.error (.notImplementedError ("Unsupported boxes format: " ++ "bogus")) ∧
    fit (fun i _ _ => i) ⟨1, 1, true, fun _ _ => 0⟩ 3 4 0 "bogus" =
      Except.error (.notImplementedError ("Unsupported mode: " ++ "bogus")) := by
  refine ⟨?_, ?_⟩
  · exact unsupported_format_mode_errors.1 (BoxesInput.boxes []) "bogus" 2
      (by decide) (by decide) (by decide) (by norm_num)
  · exact unsupported_format_mode_errors.2 (fun i _ _ => i) ⟨1, 1, true, fun _ _ => 0⟩ 3 4 0
      "bogus" (by decide) (by decide) (by decide) (by decide) (by decide)

/-- Valid in-range indexing succeeds and agrees with `List.get?`. -/
theorem pyStrIndex_valid (s : List Char) (i : ℤ) (h0 : 0 ≤ i) (h1 : i < (s.length : ℤ)) :
    ∃ c, OneGraphPipeline.pyStrIndex s i = Except.ok c ∧ s.get? i.toNat = some c := by
  have hj : ¬ i < 0 := not_lt.mpr h0
  have hlt : i.toNat < s.length := by omega
  refine ⟨s.get ⟨i.toNat, hlt⟩, ?_, ?_⟩
  · rw [OneGraphPipeline.pyStrIndex]
    simp only [hj, if_false]
    rw [dif_pos ⟨h0, h1⟩]
  · exact List.get?_eq_get hlt

/-- The filtered `mapM` of one row: under the claim's well-formedness
hypothesis every surviving index is valid, the blank index and `-1` are
dropped, and the rest map through the alphabet. -/
theorem decode_row_eq (alphabet : List Char) :
    ∀ row : List ℤ,
    (∀ i ∈ row, i = -1 ∨ i = (alphabet.length : ℤ) ∨ (0 ≤ i ∧ i < (alphabet.length : ℤ))) →
    (row.filter (fun idx =>
        !(idx = OneGraphPipeline.blank_label_idx alphabet ∨ idx = -1))).mapM
      (OneGraphPipeline.pyStrIndex alphabet) =
      Except.ok (row.filterMap (fun i =>
        if 0 ≤ i ∧ i < (alphabet.length : ℤ) then alphabet.get? i.toNat else none)) := by
  intro row
  induction row with
  | nil => intro _; rfl
  | cons i rest ih =>
    intro h
    have hrest := fun j hj => h j (List.mem_cons_of_mem _ hj)
    rcases h i (List.mem_cons_self _ _) with hi | hi | hi
    · rw [List.filter_cons_of_neg (by simp [hi, OneGraphPipeline.blank_label_idx]),
        List.filterMap_cons_none (by simp [hi]), ih hrest]
    · rw [List.filter_cons_of_neg (by simp [hi, OneGraphPipeline.blank_label_idx]),
        List.filterMap_cons_none (by simp [hi]), ih hrest]
    · obtain ⟨c, hc, hg⟩ := pyStrIndex_valid alphabet i hi.1 hi.2
      rw [List.filter_cons_of_pos (by
          simp only [OneGraphPipeline.blank_label_idx, Bool.not_eq_true']
          simp only [decide_eq_false_iff_not]
          push_neg
          omega),
        List.filterMap_cons_some (by rw [if_pos hi]; exact hg),
        List.mapM_cons, ih hrest, hc]
      rfl

/-- C6: `OneGraphPipeline.decode_prediction` decodes every row of indices
(each index being `-1`, the blank index = alphabet length, or a valid
alphabet position) by mapping the valid indices through the alphabet, and
any index equal to the blank index (one past the last valid character) or
to `-1` contributes no character. -/
theorem decode_prediction_spec (alphabet : List Char) (row : List ℤ)
    (h : ∀ i ∈ row, i = -1 ∨ i = (alphabet.length : ℤ) ∨ (0 ≤ i ∧ i < (alphabet.length : ℤ))) :
    OneGraphPipeline.decode_prediction alphabet [row] =
      Except.ok [row.filterMap (fun i =>
        if 0 ≤ i ∧ i < (alphabet.length : ℤ) then alphabet.get? i.toNat else none)] := by
  rw [OneGraphPipeline.decode_prediction, List.mapM_cons, decode_row_eq alphabet row h]
  rfl

/-- C6 (witness): over the alphabet `['a', 'b']` (blank index 2) the raw
row `[1, -1, 2, 0]` decodes to `"ba"`: the `-1` and the blank index 2
contribute nothing. -/
theorem decode_prediction_spec_witness :
    OneGraphPipeline.decode_prediction ['a', 'b'] [[1, -1, 2, 0]] =
      Except.ok [['b', 'a']] :=
  (decode_prediction_spec ['a', 'b'] [1, -1, 2, 0] (by decide)).trans rfl

/-- C8: `fix_line` on four boxes whose (normalized-box) centroids have
strictly increasing x and constant y returns orientation `"horizontal"`
with the boxes in left-to-right centroid order, and on four boxes whose
centroids have constant x and strictly increasing y returns orientation
`"vertical"` with the boxes in top-to-bottom centroid order — for every
arctan and minimum-rotated-rectangle primitive threaded through the
per-box normalization. -/
theorem fix_line_four_box_orientation :
    (∀ (atanM : ℚ → ℚ) (mrr : Quad → Quad) (b0 b1 b2 b3 : Quad)
      (c0 c1 c2 c3 : Option Char),
      (quadMean (get_rotated_box atanM mrr b0).1).1 <
        (quadMean (get_rotated_box atanM mrr b1).1).1 →
      (quadMean (get_rotated_box atanM mrr b1).1).1 <
        (quadMean (get_rotated_box atanM mrr b2).1).1 →
      (quadMean (get_rotated_box atanM mrr b2).1).1 <
        (quadMean (get_rotated_box atanM mrr b3).1).1 →
      (quadMean (get_rotated_box atanM mrr b1).1).2 =
        (quadMean (get_rotated_box atanM mrr b0).1).2 →
      (quadMean (get_rotated_box atanM mrr b2).1).2 =
        (quadMean (get_rotated_box atanM mrr b0).1).2 →
      (quadMean (get_rotated_box atanM mrr b3).1).2 =
        (quadMean (get_rotated_box atanM mrr b0).1).2 →
      fix_line atanM mrr [(b0, c0), (b1, c1), (b2, c2), (b3, c3)] =
        ([((get_rotated_box atanM mrr b0).1, c0), ((get_rotated_box atanM mrr b1).1, c1),
          ((get_rotated_box atanM mrr b2).1, c2), ((get_rotated_box atanM mrr b3).1, c3)],
         "horizontal")) ∧
    (∀ (atanM : ℚ → ℚ) (mrr : Quad → Quad) (b0 b1 b2 b3 : Quad)
      (c0 c1 c2 c3 : Option Char),
      (quadMean (get_rotated_box atanM mrr b0).1).2 <
        (quadMean (get_rotated_box atanM mrr b1).1).2 →
      (quadMean (get_rotated_box atanM mrr b1).1).2 <
        (quadMean (get_rotated_box atanM mrr b2).1).2 →
      (quadMean (get_rotated_box atanM mrr b2).1).2 <
        (quadMean (get_rotated_box atanM mrr b3).1).2 →
      (quadMean (get_rotated_box atanM mrr b1).1).1 =
        (quadMean (get_rotated_box atanM mrr b0).1).1 →
      (quadMean (get_rotated_box atanM mrr b2).1).1 =
        (quadMean (get_rotated_box atanM mrr b0).1).1 →
      (quadMean (get_rotated_box atanM mrr b3).1).1 =
        (quadMean (get_rotated_box atanM mrr b0).1).1 →
      fix_line atanM mrr [(b0, c0), (b1, c1), (b2, c2), (b3, c3)] =
        ([((get_rotated_box atanM mrr b0).1, c0), ((get_rotated_box atanM mrr b1).1, c1),
          ((get_rotated_box atanM mrr b2).1, c2), ((get_rotated_box atanM mrr b3).1, c3)],
         "vertical")) := by
  constructor
  · intro atanM mrr b0 b1 b2 b3 c0 c1 c2 c3 hx01 hx12 hx23 hy1 hy2 hy3
    have l01 := le_of_lt hx01
    have l12 := le_of_lt hx12
    have l23 := le_of_lt hx23
    have l02 := le_of_lt (lt_trans hx01 hx12)
    have l13 := le_of_lt (lt_trans hx12 hx23)
    have l03 := le_of_lt (lt_trans hx01 (lt_trans hx12 hx23))
    simp only [fix_line, List.map_cons, List.map_nil, argsortBy, stableSortBy,
      List.length_cons, List.length_nil, List.range_succ, List.range_zero,
      List.nil_append, List.cons_append, List.foldl_cons, List.foldl_nil,
      insertBy, List.getD_cons_zero, List.getD_cons_succ,
      l01, l12, l23, l02, l13, l03, hy1, hy2, hy3, le_refl, if_true, diffSum,
      sub_self, add_zero, zero_add]
    split_ifs with hcond
    · exfalso
      linarith
    · rfl
  · intro atanM mrr b0 b1 b2 b3 c0 c1 c2 c3 hy01 hy12 hy23 hx1 hx2 hx3
    have l01 := le_of_lt hy01
    have l12 := le_of_lt hy12
    have l23 := le_of_lt hy23
    have l02 := le_of_lt (lt_trans hy01 hy12)
    have l13 := le_of_lt (lt_trans hy12 hy23)
    have l03 := le_of_lt (lt_trans hy01 (lt_trans hy12 hy23))
    simp only [fix_line, List.map_cons, List.map_nil, argsortBy, stableSortBy,
      List.length_cons, List.length_nil, List.range_succ, List.range_zero,
      List.nil_append, List.cons_append, List.foldl_cons, List.foldl_nil,
      insertBy, List.getD_cons_zero, List.getD_cons_succ,
      l01, l12, l23, l02, l13, l03, hx1, hx2, hx3, le_refl, if_true, diffSum,
      sub_self, add_zero, zero_add]
    split_ifs with hcond
    · rfl
    · exfalso
      linarith

/-- C8 (witness): the theorem applied to four unit squares in a row at
x-offsets 0, 10, 20, 30 (horizontal) and to four unit squares in a column
at y-offsets 0, 10, 20, 30 (vertical), with identity arctan and
minimum-rotated-rectangle primitives. -/
theorem fix_line_four_box_orientation_witness :
    fix_line id id
        [(⟨(0, 0), (1, 0), (1, 1), (0, 1)⟩, some 'h'), (⟨(10, 0), (11, 0), (11, 1), (10, 1)⟩, none),
         (⟨(20, 0), (21, 0), (21, 1), (20, 1)⟩, none), (⟨(30, 0), (31, 0), (31, 1), (30, 1)⟩, none)] =
      ([(⟨(0, 0), (1, 0), (1, 1), (0, 1)⟩, some 'h'), (⟨(10, 0), (11, 0), (11, 1), (10, 1)⟩, none),
        (⟨(20, 0), (21, 0), (21, 1), (20, 1)⟩, none), (⟨(30, 0), (31, 0), (31, 1), (30, 1)⟩, none)],
       "horizontal") ∧
    fix_line id id
        [(⟨(0, 0), (1, 0), (1, 1), (0, 1)⟩, some 'v'), (⟨(0, 10), (1, 10), (1, 11), (0, 11)⟩, none),
         (⟨(0, 20), (1, 20), (1, 21), (0, 21)⟩, none), (⟨(0, 30), (1, 30), (1, 31), (0, 31)⟩, none)] =
      ([(⟨(0, 0), (1, 0), (1, 1), (0, 1)⟩, some 'v'), (⟨(0, 10), (1, 10), (1, 11), (0, 11)⟩, none),
        (⟨(0, 20), (1, 20), (1, 21), (0, 21)⟩, none), (⟨(0, 30), (1, 30), (1, 31), (0, 31)⟩, none)],
       "vertical") := by
  constructor
  · refine (fix_line_four_box_orientation.1 id id _ _ _ _ _ _ _ _ ?_ ?_ ?_ ?_ ?_ ?_).trans ?_ <;>
      norm_num [get_rotated_box, orderPointsRot, stableSortBy, insertBy, List.foldl,
        sqDist, ratDivOpt, quadMean]
  · refine (fix_line_four_box_orientation.2 id id _ _ _ _ _ _ _ _ ?_ ?_ ?_ ?_ ?_ ?_).trans ?_ <;>
      norm_num [get_rotated_box, orderPointsRot, stableSortBy, insertBy, List.foldl,
        sqDist, ratDivOpt, quadMean]

/-- C7: for every collection of boxes in any format (in particular the
three supported formats `boxes`, `lines` and `predictions`),
`adjust_boxes` with `scale == 1` returns the input unchanged: the
`if scale == 1: return boxes` line precedes all format handling. -/
theorem adjust_boxes_identity_at_scale_one (boxes : BoxesInput) (boxes_format : String) :
    adjust_boxes boxes boxes_format 1 = Except.ok boxes := by
  simp [adjust_boxes]

/-- Stable insertion grows the length by one. -/
theorem insertBy_length {α : Type} (key : α → ℚ) (p : α) :
    ∀ l : List α, (insertBy key p l).length = l.length + 1 := by
  intro l
  induction l with
  | nil => rfl
  | cons q rest ih =>
    rw [insertBy]
    split_ifs <;> simp [ih]

/-- Stable insertion sort preserves the length. -/
theorem stableSortBy_length {α : Type} (key : α → ℚ) (l : List α) :
    (stableSortBy key l).length = l.length := by
  suffices h : ∀ (l acc : List α),
      (l.foldl (fun acc p => insertBy key p acc) acc).length = acc.length + l.length by
    simpa using h l []
  intro l
  induction l with
  | nil => intro acc; simp
  | cons p rest ih =>
    intro acc
    rw [List.foldl_cons, ih, insertBy_length, List.length_cons]
    omega

/-- C5: for every arctan primitive, every minimum-rotated-rectangle
primitive and every input point set, the rotation returned by
`get_rotated_box` is `arctan((tl.x - bl.x) / (tl.y - bl.y))` computed over
its own ordered output points (`tl` = output point 0, `bl` = output point
3); when `tl.y = bl.y` the unguarded division makes the result undefined
(`none`, numpy's inf/nan), with no special-casing beyond propagating the
division result. -/
theorem get_rotated_box_rotation (atanM : ℚ → ℚ) (mrr : Quad → Quad) (points : Quad) :
    (get_rotated_box atanM mrr points).2 =
      (if (get_rotated_box atanM mrr points).1.p0.2 = (get_rotated_box atanM mrr points).1.p3.2
       then none
       else some (atanM
        (((get_rotated_box atanM mrr points).1.p0.1 - (get_rotated_box atanM mrr points).1.p3.1) /
         ((get_rotated_box atanM mrr points).1.p0.2 - (get_rotated_box atanM mrr points).1.p3.2)))) := by
  set q := mrr points with hq
  obtain ⟨a, b, c, d, he⟩ : ∃ a b c d,
      stableSortBy Prod.fst [q.p0, q.p1, q.p2, q.p3] = [a, b, c, d] := by
    have h4 : (stableSortBy Prod.fst [q.p0, q.p1, q.p2, q.p3]).length = 4 :=
      stableSortBy_length _ _
    rcases hl : stableSortBy Prod.fst [q.p0, q.p1, q.p2, q.p3] with
      _ | ⟨a, _ | ⟨b, _ | ⟨c, _ | ⟨d, rest⟩⟩⟩⟩ <;> rw [hl] at h4 <;> simp at h4
    exact ⟨a, b, c, d, by simp [h4]⟩
  simp only [get_rotated_box, orderPointsRot, he]
  simp only [stableSortBy, List.foldl, insertBy]
  split_ifs with h1 h2 h3 <;> simp_all [ratDivOpt, sub_eq_zero]
/-- C9: the `margin` argument of `warpBox` is never read by its body, so
for every image, box, target size, fill value, resize primitive and any
two margin values the results are identical (noninterference of the
margin input). -/
theorem warpBox_margin_noninterference (resizeFn : PyImage → ℕ → ℕ → PyImage)
    (image : PyImage) (box : Quad) (target_height target_width : ℕ)
    (margin₁ margin₂ : ℚ) (cval : Option ℚ) :
    warpBox resizeFn image box target_height target_width margin₁ cval =
      warpBox resizeFn image box target_height target_width margin₂ cval := rfl

/-- C10: the two size assertions of `pad` compare the target dimensions to
an `output_shape` built from those same target dimensions, so they hold
for every input and `pad` never fails with an `AssertionError` — also when
the input image exceeds the target size (where the later numpy broadcast
fails with a `ValueError` instead). -/
theorem pad_assertions_vacuous (image : PyImage) (width height : ℕ) (cval : ℚ) :
    pad image width height cval =
      (if image.height ≤ height ∧ image.width ≤ width then
        Except.ok ⟨height, width, image.is3d,
          fun r c => if r < image.height ∧ c < image.width then image.pix r c else cval⟩
      else Except.error (PyErr.valueError "could not broadcast input array")) := by
  simp [pad]
